import Mathlib

/-!
Verification of the resilient AI-call layer of Pulse360:
the circuit breaker (`app/core/flux_ai/circuit_breaker.py`),
the two cache implementations (`app/core/flux_ai/enhanced_cache.py`,
`app/core/flux_ai/cache.py`) and the fallback table
(`app/core/flux_ai/fallback.py`), shallowly embedded as pure Lean
functions over explicit state.  Timestamps are naturals; the wrapped
async function of a single call is represented by the outcome it would
produce if invoked.
-/

namespace Pulse360

/-- The three states of `CircuitState` in `circuit_breaker.py`. -/
inductive CircuitState where
  | CLOSED
  | OPEN
  | HALF_OPEN
deriving DecidableEq, Repr

/-- The mutable fields of a `CircuitBreaker` instance together with its
two configuration parameters.  `last_failure_time` starts at 0, the state
at `CLOSED`, the count at 0 (constructor of `CircuitBreaker`). -/
structure CircuitBreaker where
  failure_threshold : Nat
  recovery_timeout : Nat
  state : CircuitState
  failure_count : Nat
  last_failure_time : Nat
deriving DecidableEq, Repr

/-- A freshly constructed breaker: `CircuitBreaker.__init__`. -/
def CircuitBreaker.mk0 (threshold timeout : Nat) : CircuitBreaker :=
  ⟨threshold, timeout, CircuitState.CLOSED, 0, 0⟩

/-- `CircuitBreaker.record_failure`: increment the count, stamp the time,
then run the two sequential `if` blocks of the Python method. -/
def CircuitBreaker.record_failure (cb : CircuitBreaker) (now : Nat) : CircuitBreaker :=
  let cb1 := { cb with failure_count := cb.failure_count + 1, last_failure_time := now }
  let cb2 :=
    if cb1.state = CircuitState.CLOSED ∧ cb1.failure_count ≥ cb1.failure_threshold then
      { cb1 with state := CircuitState.OPEN }
    else cb1
  if cb2.state = CircuitState.HALF_OPEN then { cb2 with state := CircuitState.OPEN } else cb2

/-- What the wrapped function would do, were it invoked at this call:
either return a value or raise an error. -/
inductive Outcome (α ε : Type) where
  | success (value : α)
  | failure (err : ε)
deriving DecidableEq, Repr

/-- What `CircuitBreaker.call` hands back to its caller: the wrapped
function's result, the fallback handler's response for the wrapped
function's name (`self.fallback_handler(func.__name__, ...)`), or a
re-raised error. -/
inductive CallOutput (α ε : Type) where
  | result (value : α)
  | fallbackResp (funcName : String)
  | raised (err : ε)
deriving DecidableEq, Repr

/-- The observable effect of one `CircuitBreaker.call`: the breaker
afterwards, what was returned or raised, and whether the wrapped
function was invoked at all. -/
structure CallResult (α ε : Type) where
  breaker : CircuitBreaker
  output : CallOutput α ε
  funcInvoked : Bool
deriving DecidableEq, Repr

/-- `CircuitBreaker.call`.  When the state is OPEN and the recovery
timeout has not elapsed (`not (time.time() > last_failure_time +
recovery_timeout)`) the fallback is returned without touching the
wrapped function; otherwise an OPEN breaker first moves to HALF_OPEN,
the function is awaited, a success in HALF_OPEN closes the circuit and
zeroes the count, and a failure runs `record_failure` and then either
returns the fallback (state now OPEN) or re-raises. -/
def CircuitBreaker.call (cb : CircuitBreaker) (funcName : String) (now : Nat)
    (outcome : Outcome α ε) : CallResult α ε :=
  if cb.state = CircuitState.OPEN ∧ ¬ now > cb.last_failure_time + cb.recovery_timeout then
    ⟨cb, CallOutput.fallbackResp funcName, false⟩
  else
    let cb1 :=
      if cb.state = CircuitState.OPEN then { cb with state := CircuitState.HALF_OPEN } else cb
    match outcome with
    | Outcome.success v =>
        let cb2 :=
          if cb1.state = CircuitState.HALF_OPEN then
            { cb1 with state := CircuitState.CLOSED, failure_count := 0 }
          else cb1
        ⟨cb2, CallOutput.result v, true⟩
    | Outcome.failure e =>
        let cb2 := cb1.record_failure now
        if cb2.state = CircuitState.OPEN then ⟨cb2, CallOutput.fallbackResp funcName, true⟩
        else ⟨cb2, CallOutput.raised e, true⟩

/-- Python truthiness of a cached payload, used by the `if db_result:`
test of `get_or_execute` (a falsy payload read from the persistent tier
is treated as a miss). -/
class PyTruthy (α : Type) where
  truthy : α → Bool

instance : PyTruthy Nat := ⟨fun n => n != 0⟩

/-- One row of the `ai_cache` table (`app/models/cache.py`):
`request_hash` carries a UNIQUE constraint, `response_data` the cached
payload, `expires_at` the absolute expiry time. -/
structure DbRow (α : Type) where
  request_hash : String
  response_data : α
  expires_at : Nat
deriving DecidableEq, Repr

/-- The two cache tiers seen by one cache instance: the Redis store as
an association list `(key, value, absolute expiry)` and the `ai_cache`
table rows.  JSON round-tripping (`json.dumps` / `json.loads`) is the
identity on the payload type `α`. -/
structure CacheState (α : Type) where
  redis : List (String × α × Nat)
  db : List (DbRow α)
deriving DecidableEq, Repr

/-- `redis.get(key)` at time `now`: the stored value while its TTL has
not elapsed, otherwise nothing. -/
def redisGet (redis : List (String × α × Nat)) (now : Nat) (key : String) : Option α :=
  match redis.find? (fun e => e.1 == key) with
  | some (_, v, exp) => if now < exp then some v else none
  | none => none

/-- `redis.set(key, value, ex=ttl)`: overwrite any previous entry for
`key` with the new value and absolute expiry. -/
def redisSet (redis : List (String × α × Nat)) (key : String) (v : α) (exp : Nat) :
    List (String × α × Nat) :=
  (key, v, exp) :: redis.filter (fun e => e.1 != key)

/-- `default_ttl = 3600` of both cache classes. -/
def default_ttl : Nat := 3600

/-- Python's `ttl or self.default_ttl`: `None` and `0` are both falsy
and fall back to the default. -/
def ttlOrDefault (ttl : Option Nat) : Nat :=
  match ttl with
  | some t => if t = 0 then default_ttl else t
  | none => default_ttl

/-- `_get_from_db_cache` of both cache classes: select the first
`ai_cache` row with `request_hash == cache_key` and
`expires_at > datetime.utcnow()`. -/
def get_from_db_cache (db : List (DbRow α)) (now : Nat) (key : String) : Option α :=
  match db.find? (fun r => r.request_hash == key && decide (now < r.expires_at)) with
  | some r => some r.response_data
  | none => none

/-- The storage operations of `get_or_execute` that the code leaves
uncaught and that therefore surface to the caller when they fail. -/
inductive StorageErr where
  | redisGetErr
  | redisSetErr
deriving DecidableEq, Repr

/-- Fault injection for the four kinds of storage round-trips a single
`get_or_execute` can perform.  `redis.get` and `redis.set` are not
wrapped in any `try`; the database read and the database write each sit
inside a `try/except` of their own. -/
structure Faults where
  redisGetRaises : Bool := false
  redisSetRaises : Bool := false
  dbReadRaises : Bool := false
  dbWriteRaises : Bool := false
deriving DecidableEq, Repr

/-- No storage operation fails. -/
def Faults.none : Faults := ⟨false, false, false, false⟩

/-- What one `get_or_execute` hands back: the computed or cached value,
or an uncaught storage error. -/
inductive CacheOutput (α : Type) where
  | ok (value : α)
  | raisedErr (e : StorageErr)
deriving DecidableEq, Repr

/-- The observable effect of one `get_or_execute`: the two tiers
afterwards, the returned value or propagated storage error, and whether
the wrapped function was invoked. -/
structure CacheCallResult (α : Type) where
  state : CacheState α
  output : CacheOutput α
  funcInvoked : Bool
deriving DecidableEq, Repr

/-- Replace the payload and expiry of the first row whose
`request_hash` matches `key` (the ORM object found by
`result_db.scalars().first()` mutated in place). -/
def updateFirst (db : List (DbRow α)) (key : String) (v : α) (exp : Nat) : List (DbRow α) :=
  match db with
  | [] => []
  | r :: rest =>
      if r.request_hash == key then { r with response_data := v, expires_at := exp } :: rest
      else r :: updateFirst rest key v exp

namespace EnhancedCache

/-- `EnhancedCache._cache_result`: `redis.set` first (uncaught), then,
inside a `try` with rollback, select the row for the key and update it
in place when present, otherwise insert a fresh row. -/
def cache_result (f : Faults) (st : CacheState α) (now : Nat) (key : String)
    (ttl : Option Nat) (v : α) : Sum (CacheState α) StorageErr :=
  if f.redisSetRaises then Sum.inr StorageErr.redisSetErr
  else
    let st1 := { st with redis := redisSet st.redis key v (now + ttlOrDefault ttl) }
    let expires_at := now + ttlOrDefault ttl
    if f.dbWriteRaises then Sum.inl st1
    else
      match st1.db.find? (fun r => r.request_hash == key) with
      | some _ => Sum.inl { st1 with db := updateFirst st1.db key v expires_at }
      | none => Sum.inl { st1 with db := st1.db ++ [⟨key, v, expires_at⟩] }

/-- The full-miss tail of `EnhancedCache.get_or_execute` (lines 85-92):
execute the function with retry, cache the result, return it.  A raise
out of `_cache_result` happens before any tier was written. -/
def missExecute (f : Faults) (st : CacheState α) (now : Nat) (key : String)
    (ttl : Option Nat) (funcVal : α) : CacheCallResult α :=
  match cache_result f st now key ttl funcVal with
  | Sum.inl st2 => ⟨st2, CacheOutput.ok funcVal, true⟩
  | Sum.inr e => ⟨st, CacheOutput.raisedErr e, true⟩

/-- `EnhancedCache.get_or_execute` with an explicit `cache_key`:
bypass goes straight to execution with no cache traffic; otherwise
Redis is consulted first (`json.dumps` output is never falsy, so any
present entry is a hit), then the persistent tier (whose read errors
are caught and count as a miss, and whose falsy payloads fail the
`if db_result:` test), and a persistent hit repopulates Redis before
returning; a full miss executes and caches. -/
def get_or_execute [PyTruthy α] (f : Faults) (st : CacheState α) (now : Nat)
    (cache_key : String) (ttl : Option Nat) (bypass_cache : Bool) (funcVal : α) :
    CacheCallResult α :=
  if bypass_cache then ⟨st, CacheOutput.ok funcVal, true⟩
  else if f.redisGetRaises then ⟨st, CacheOutput.raisedErr StorageErr.redisGetErr, false⟩
  else
    match redisGet st.redis now cache_key with
    | some v => ⟨st, CacheOutput.ok v, false⟩
    | none =>
        let db_result : Option α :=
          if f.dbReadRaises then none else get_from_db_cache st.db now cache_key
        match db_result with
        | some v =>
            if PyTruthy.truthy v then
              if f.redisSetRaises then ⟨st, CacheOutput.raisedErr StorageErr.redisSetErr, false⟩
              else
                ⟨{ st with redis := redisSet st.redis cache_key v (now + ttlOrDefault ttl) },
                  CacheOutput.ok v, false⟩
            else missExecute f st now cache_key ttl funcVal
        | none => missExecute f st now cache_key ttl funcVal

end EnhancedCache

namespace FluxAICache

/-- `FluxAICache._cache_result`: `redis.set` first (uncaught), then,
inside a `try` with rollback, unconditionally `db.add` a fresh row; the
UNIQUE constraint on `request_hash` makes the commit fail when a row
for the key already exists, so the rollback leaves the table unchanged. -/
def cache_result (f : Faults) (st : CacheState α) (now : Nat) (key : String)
    (ttl : Option Nat) (v : α) : Sum (CacheState α) StorageErr :=
  if f.redisSetRaises then Sum.inr StorageErr.redisSetErr
  else
    let st1 := { st with redis := redisSet st.redis key v (now + ttlOrDefault ttl) }
    let expires_at := now + ttlOrDefault ttl
    if f.dbWriteRaises then Sum.inl st1
    else if st1.db.any (fun r => r.request_hash == key) then Sum.inl st1
    else Sum.inl { st1 with db := st1.db ++ [⟨key, v, expires_at⟩] }

/-- The full-miss tail of `FluxAICache.get_or_execute` (lines 79-86). -/
def missExecute (f : Faults) (st : CacheState α) (now : Nat) (key : String)
    (ttl : Option Nat) (funcVal : α) : CacheCallResult α :=
  match cache_result f st now key ttl funcVal with
  | Sum.inl st2 => ⟨st2, CacheOutput.ok funcVal, true⟩
  | Sum.inr e => ⟨st, CacheOutput.raisedErr e, true⟩

/-- `FluxAICache.get_or_execute` with an explicit `cache_key`: the same
lookup cascade as the enhanced cache, without a bypass parameter. -/
def get_or_execute [PyTruthy α] (f : Faults) (st : CacheState α) (now : Nat)
    (cache_key : String) (ttl : Option Nat) (funcVal : α) : CacheCallResult α :=
  if f.redisGetRaises then ⟨st, CacheOutput.raisedErr StorageErr.redisGetErr, false⟩
  else
    match redisGet st.redis now cache_key with
    | some v => ⟨st, CacheOutput.ok v, false⟩
    | none =>
        let db_result : Option α :=
          if f.dbReadRaises then none else get_from_db_cache st.db now cache_key
        match db_result with
        | some v =>
            if PyTruthy.truthy v then
              if f.redisSetRaises then ⟨st, CacheOutput.raisedErr StorageErr.redisSetErr, false⟩
              else
                ⟨{ st with redis := redisSet st.redis cache_key v (now + ttlOrDefault ttl) },
                  CacheOutput.ok v, false⟩
            else missExecute f st now cache_key ttl funcVal
        | none => missExecute f st now cache_key ttl funcVal

end FluxAICache

/-- JSON-like values, the shape of the dictionaries built in
`fallback.py`. -/
inductive Json where
  | null
  | bool (b : Bool)
  | num (n : Int)
  | str (s : String)
  | arr (xs : List Json)
  | obj (fields : List (String × Json))

/-- Field lookup in a JSON object; `none` on a non-object or an absent
key. -/
def Json.getField : Json → String → Option Json
  | Json.obj fields, key => (fields.find? (fun p => p.1 == key)).map (fun p => p.2)
  | _, _ => none

/-- `_fallback_chat_completion`: the canned single-choice response; its
`messages` argument (and any extra arguments) is ignored. -/
def fallback_chat_completion (messages : List Json) : Json :=
  Json.obj
    [("choices", Json.arr
        [Json.obj
          [("finish_reason", Json.str "stop"),
           ("message", Json.obj
             [("role", Json.str "assistant"),
              ("content", Json.str "I'm sorry, but the AI service is currently unavailable. Your request has been saved and will be processed when the service is back online.")])]]),
     ("created", Json.num 0),
     ("id", Json.str "fallback_response"),
     ("model", Json.str "fallback"),
     ("usage", Json.arr
        [Json.obj
          [("completion_tokens", Json.num 0),
           ("prompt_tokens", Json.num 0),
           ("total_tokens", Json.num 0)]])]

/-- `_fallback_upload_file`: constant error payload (its arguments are
unused). -/
def fallback_upload_file : Json :=
  Json.obj
    [("success", Json.bool false),
     ("message", Json.str "Unable to upload file to AI service at this time. The file has been stored locally and will be processed when the service is available."),
     ("data", Json.arr [])]

/-- `_fallback_list_files`: constant empty listing. -/
def fallback_list_files : Json :=
  Json.obj
    [("success", Json.bool false),
     ("message", Json.str "Unable to fetch files from AI service at this time."),
     ("data", Json.arr []),
     ("count", Json.num 0)]

/-- `_fallback_get_file`: constant error payload. -/
def fallback_get_file : Json :=
  Json.obj
    [("success", Json.bool false),
     ("message", Json.str "Unable to fetch file details from AI service at this time."),
     ("data", Json.null)]

/-- `_fallback_delete_file`: constant error payload. -/
def fallback_delete_file : Json :=
  Json.obj
    [("success", Json.bool false),
     ("message", Json.str "Unable to delete file from AI service at this time. The operation will be retried later.")]

/-- `get_fallback_response`: dispatch on the wrapped function's name;
for `chat_completion` the positional arguments carry the messages list. -/
def get_fallback_response (function_name : String) (messages : List Json) : Json :=
  if function_name = "upload_file" then fallback_upload_file
  else if function_name = "list_files" then fallback_list_files
  else if function_name = "get_file" then fallback_get_file
  else if function_name = "delete_file" then fallback_delete_file
  else if function_name = "chat_completion" then fallback_chat_completion messages
  else
    Json.obj
      [("success", Json.bool false),
       ("message", Json.str "Service unavailable. Please try again later.")]

/-! ## Circuit breaker claims -/

/-- C1: a breaker constructed with `failure_threshold = 3` (CLOSED,
`failure_count = 0`) moves CLOSED → CLOSED → OPEN under three
consecutive failing calls, and a fourth call made while less than
`recovery_timeout` seconds have elapsed since the last recorded failure
does not invoke the wrapped function and returns the fallback handler's
response for that function's name. -/
theorem C1_breaker_threshold (T t1 t2 t3 t4 e1 e2 e3 : Nat) (n1 n2 n3 n4 : String)
    (o4 : Outcome Unit Nat) (h : t4 < t3 + T) :
    (CircuitBreaker.mk0 3 T).call n1 t1 (Outcome.failure (α := Unit) e1) =
      ⟨⟨3, T, CircuitState.CLOSED, 1, t1⟩, CallOutput.raised e1, true⟩ ∧
    (⟨3, T, CircuitState.CLOSED, 1, t1⟩ : CircuitBreaker).call n2 t2
        (Outcome.failure (α := Unit) e2) =
      ⟨⟨3, T, CircuitState.CLOSED, 2, t2⟩, CallOutput.raised e2, true⟩ ∧
    (⟨3, T, CircuitState.CLOSED, 2, t2⟩ : CircuitBreaker).call n3 t3
        (Outcome.failure (α := Unit) e3) =
      ⟨⟨3, T, CircuitState.OPEN, 3, t3⟩, CallOutput.fallbackResp n3, true⟩ ∧
    (⟨3, T, CircuitState.OPEN, 3, t3⟩ : CircuitBreaker).call n4 t4 o4 =
      ⟨⟨3, T, CircuitState.OPEN, 3, t3⟩, CallOutput.fallbackResp n4, false⟩ := by
  refine ⟨rfl, rfl, rfl, ?_⟩
  have hng : ¬ t4 > t3 + T := by omega
  simp [CircuitBreaker.call, hng]

/-- C1 witness: the four-call scenario at concrete times 1, 2, 3, 10
with `recovery_timeout = 30`. -/
theorem C1_breaker_threshold_witness :
    (10 : Nat) < 3 + 30 ∧
    (⟨3, 30, CircuitState.OPEN, 3, 3⟩ : CircuitBreaker).call "chat_completion" 10
        (Outcome.success (ε := Nat) ()) =
      ⟨⟨3, 30, CircuitState.OPEN, 3, 3⟩, CallOutput.fallbackResp "chat_completion", false⟩ :=
  ⟨by decide,
   (C1_breaker_threshold 30 1 2 3 10 0 0 0 "a" "b" "c" "chat_completion"
     (Outcome.success ()) (by decide)).2.2.2⟩

/-- C3 counterexample: with `failure_threshold = 1` the breaker is
CLOSED at call time, the wrapped function raises, yet `call` returns the
fallback response instead of re-raising — the claim says every failure
in call-time state CLOSED or HALF_OPEN re-raises. -/
theorem C3_counterexample :
    ((⟨1, 30, CircuitState.CLOSED, 0, 0⟩ : CircuitBreaker).call "f" 5
        (Outcome.failure (α := Unit) 0)).output = CallOutput.fallbackResp "f" ∧
    ((⟨1, 30, CircuitState.CLOSED, 0, 0⟩ : CircuitBreaker).call "f" 5
        (Outcome.failure (α := Unit) 0)).output ≠ CallOutput.raised 0 := by
  exact ⟨rfl, by decide⟩

/-- C3 amended: whenever the wrapped function is invoked and raises,
the bookkeeping (`failure_count` incremented, `last_failure_time := now`)
always happens, and the error re-raises exactly when the state left by
`record_failure` is not OPEN; when that failure opened the circuit
(threshold reached from CLOSED, or any failed HALF_OPEN trial) the
fallback response for the function's name is returned instead. -/
theorem C3_failure_propagation {α ε : Type} (cb : CircuitBreaker) (name : String) (now : Nat)
    (e : ε)
    (hInv : ¬ (cb.state = CircuitState.OPEN ∧
      ¬ now > cb.last_failure_time + cb.recovery_timeout)) :
    (cb.call (α := α) name now (Outcome.failure e)).funcInvoked = true ∧
    (cb.call (α := α) name now (Outcome.failure e)).breaker.failure_count =
      cb.failure_count + 1 ∧
    (cb.call (α := α) name now (Outcome.failure e)).breaker.last_failure_time = now ∧
    ((cb.call (α := α) name now (Outcome.failure e)).output = CallOutput.raised e ↔
      (cb.call (α := α) name now (Outcome.failure e)).breaker.state ≠ CircuitState.OPEN) ∧
    ((cb.call (α := α) name now (Outcome.failure e)).output ≠ CallOutput.raised e →
      (cb.call (α := α) name now (Outcome.failure e)).output = CallOutput.fallbackResp name) ∧
    (cb.state = CircuitState.CLOSED →
      ((cb.call (α := α) name now (Outcome.failure e)).breaker.state = CircuitState.OPEN ↔
        cb.failure_count + 1 ≥ cb.failure_threshold)) := by
  obtain ⟨ft, rt, s, fc, lf⟩ := cb
  cases s with
  | CLOSED =>
      by_cases hth : ft ≤ fc + 1
      · simp [CircuitBreaker.call, CircuitBreaker.record_failure, hth]
      · simp [CircuitBreaker.call, CircuitBreaker.record_failure, hth]
  | OPEN =>
      have hel : now > lf + rt := by
        by_contra hc
        exact hInv ⟨rfl, hc⟩
      simp [CircuitBreaker.call, CircuitBreaker.record_failure, hel]
  | HALF_OPEN =>
      simp [CircuitBreaker.call, CircuitBreaker.record_failure]

/-- C3 amended witness: a CLOSED breaker one failure short of the
threshold re-raises; the concrete instance checks the characterization
at `failure_threshold = 3`, `failure_count = 0`. -/
theorem C3_failure_propagation_witness :
    ¬ ((⟨3, 30, CircuitState.CLOSED, 0, 0⟩ : CircuitBreaker).state = CircuitState.OPEN ∧
        ¬ (5 : Nat) > 0 + 30) ∧
    ((⟨3, 30, CircuitState.CLOSED, 0, 0⟩ : CircuitBreaker).call (α := Unit) "f" 5
        (Outcome.failure (0 : Nat))).funcInvoked = true :=
  ⟨by decide,
   (C3_failure_propagation (α := Unit) ⟨3, 30, CircuitState.CLOSED, 0, 0⟩ "f" 5 (0 : Nat)
     (by decide)).1⟩

/-- C4: an OPEN breaker whose recovery timeout has elapsed lets the
next call through as a trial; a successful trial closes the circuit and
zeroes `failure_count`, a failed trial reopens it (with the count
incremented and the failure time restamped, the fallback returned). -/
theorem C4_breaker_recovery {α ε : Type} (cb : CircuitBreaker) (name : String) (now : Nat)
    (v : α) (e : ε) (hOpen : cb.state = CircuitState.OPEN)
    (hElapsed : now > cb.last_failure_time + cb.recovery_timeout) :
    cb.call name now (Outcome.success (ε := ε) v) =
      ⟨{ cb with state := CircuitState.CLOSED, failure_count := 0 },
        CallOutput.result v, true⟩ ∧
    cb.call name now (Outcome.failure (α := α) e) =
      ⟨{ cb with
          state := CircuitState.OPEN
          failure_count := cb.failure_count + 1
          last_failure_time := now },
        CallOutput.fallbackResp name, true⟩ := by
  obtain ⟨ft, rt, s, fc, lf⟩ := cb
  cases hOpen
  simp_all [CircuitBreaker.call, CircuitBreaker.record_failure]

/-- C4 witness: breaker `⟨3, 30, OPEN, 3, 3⟩` probed at time 40. -/
theorem C4_breaker_recovery_witness :
    (⟨3, 30, CircuitState.OPEN, 3, 3⟩ : CircuitBreaker).state = CircuitState.OPEN ∧
    (40 : Nat) > 3 + 30 ∧
    (⟨3, 30, CircuitState.OPEN, 3, 3⟩ : CircuitBreaker).call "f" 40
        (Outcome.success (ε := Nat) ()) =
      ⟨⟨3, 30, CircuitState.CLOSED, 0, 3⟩, CallOutput.result (), true⟩ ∧
    (⟨3, 30, CircuitState.OPEN, 3, 3⟩ : CircuitBreaker).call "f" 40
        (Outcome.failure (α := Unit) (0 : Nat)) =
      ⟨⟨3, 30, CircuitState.OPEN, 4, 40⟩, CallOutput.fallbackResp "f", true⟩ := by
  refine ⟨rfl, by decide, ?_, ?_⟩
  · exact (C4_breaker_recovery ⟨3, 30, CircuitState.OPEN, 3, 3⟩ "f" 40 () (0 : Nat) rfl
      (by decide)).1
  · exact (C4_breaker_recovery ⟨3, 30, CircuitState.OPEN, 3, 3⟩ "f" 40 () (0 : Nat) rfl
      (by decide)).2

/-- C9 counterexample: a CLOSED breaker with `failure_count = 2`
(threshold 5) keeps `failure_count = 2` after a successful call — the
claim says it equals 0 after every successful CLOSED call. -/
theorem C9_counterexample :
    ((⟨5, 30, CircuitState.CLOSED, 2, 0⟩ : CircuitBreaker).call "f" 7
        (Outcome.success (ε := Nat) ())).breaker.failure_count = 2 ∧
    ((⟨5, 30, CircuitState.CLOSED, 2, 0⟩ : CircuitBreaker).call "f" 7
        (Outcome.success (ε := Nat) ())).breaker.failure_count ≠ 0 := by
  exact ⟨rfl, by decide⟩

/-- C9 amended: a successful call made in state CLOSED returns the
function's result and leaves the breaker entirely unchanged — in
particular `failure_count` keeps its prior value; the reset to 0 happens
only on a successful HALF_OPEN trial. -/
theorem C9_closed_success {α ε : Type} (cb : CircuitBreaker) (name : String) (now : Nat)
    (v : α) (h : cb.state = CircuitState.CLOSED) :
    cb.call name now (Outcome.success (ε := ε) v) = ⟨cb, CallOutput.result v, true⟩ := by
  obtain ⟨ft, rt, s, fc, lf⟩ := cb
  cases h
  simp [CircuitBreaker.call]

/-- C9 amended witness: the concrete breaker of the counterexample is
returned unchanged. -/
theorem C9_closed_success_witness :
    (⟨5, 30, CircuitState.CLOSED, 2, 0⟩ : CircuitBreaker).state = CircuitState.CLOSED ∧
    (⟨5, 30, CircuitState.CLOSED, 2, 0⟩ : CircuitBreaker).call "g" 7
        (Outcome.success (ε := Nat) ()) =
      ⟨⟨5, 30, CircuitState.CLOSED, 2, 0⟩, CallOutput.result (), true⟩ :=
  ⟨rfl, C9_closed_success ⟨5, 30, CircuitState.CLOSED, 2, 0⟩ "g" 7 () rfl⟩

/-! ## Cache helper lemmas -/

/-- Number of persistent rows stored under a given key. -/
def countKey (db : List (DbRow α)) (key : String) : Nat :=
  (db.filter (fun r => r.request_hash == key)).length

/-- A fresh `redis.set` makes the key hit (with the new value) exactly
while its TTL is live. -/
theorem redisGet_redisSet_self (redis : List (String × α × Nat)) (key : String) (v : α)
    (exp now : Nat) :
    redisGet (redisSet redis key v exp) now key = if now < exp then some v else none := by
  unfold redisGet redisSet
  rw [List.find?_cons_of_pos _ (by simp)]

/-- `updateFirst` neither adds nor removes rows for the key. -/
theorem countKey_updateFirst (db : List (DbRow α)) (key : String) (v : α) (e : Nat) :
    countKey (updateFirst db key v e) key = countKey db key := by
  induction db with
  | nil => rfl
  | cons r rest ih =>
      by_cases hk : (r.request_hash == key) = true
      · simp [updateFirst, countKey, hk, List.filter_cons]
      · simp only [updateFirst, hk, if_false, Bool.false_eq_true]
        simp only [countKey, List.filter_cons, hk, Bool.false_eq_true, if_false]
        simpa [countKey] using ih

/-- After `updateFirst`, looking the key up finds the first original
row with its payload and expiry replaced. -/
theorem find?_updateFirst (db : List (DbRow α)) (key : String) (v : α) (e : Nat) :
    (updateFirst db key v e).find? (fun r => r.request_hash == key) =
      (db.find? (fun r => r.request_hash == key)).map
        (fun r => { r with response_data := v, expires_at := e }) := by
  induction db with
  | nil => rfl
  | cons r rest ih =>
      by_cases hk : (r.request_hash == key) = true
      · simp [updateFirst, hk, List.find?_cons_of_pos]
      · simp [updateFirst, hk, List.find?_cons_of_neg, ih]

/-- With no volatile-tier fault, the full-miss tail of the enhanced
cache always returns the freshly computed value, reports the function
as invoked, and has written the value into Redis. -/
theorem EnhancedCache.missExecute_spec {α : Type} (fr fw : Bool) (st : CacheState α)
    (now : Nat) (key : String) (ttl : Option Nat) (funcVal : α) :
    (EnhancedCache.missExecute ⟨false, false, fr, fw⟩ st now key ttl funcVal).output =
      CacheOutput.ok funcVal ∧
    (EnhancedCache.missExecute ⟨false, false, fr, fw⟩ st now key ttl funcVal).funcInvoked =
      true ∧
    (EnhancedCache.missExecute ⟨false, false, fr, fw⟩ st now key ttl funcVal).state.redis =
      redisSet st.redis key funcVal (now + ttlOrDefault ttl) := by
  cases fw
  · cases hf : st.db.find? (fun r => r.request_hash == key) <;>
      simp [EnhancedCache.missExecute, EnhancedCache.cache_result, hf]
  · simp [EnhancedCache.missExecute, EnhancedCache.cache_result]

/-- Flux-cache counterpart of `EnhancedCache.missExecute_spec`. -/
theorem FluxAICache.fluxMissExecute_spec {α : Type} (fr fw : Bool) (st : CacheState α)
    (now : Nat) (key : String) (ttl : Option Nat) (funcVal : α) :
    (FluxAICache.missExecute ⟨false, false, fr, fw⟩ st now key ttl funcVal).output =
      CacheOutput.ok funcVal ∧
    (FluxAICache.missExecute ⟨false, false, fr, fw⟩ st now key ttl funcVal).funcInvoked =
      true ∧
    (FluxAICache.missExecute ⟨false, false, fr, fw⟩ st now key ttl funcVal).state.redis =
      redisSet st.redis key funcVal (now + ttlOrDefault ttl) := by
  cases fw
  · cases hf : st.db.any (fun r => r.request_hash == key) <;>
      simp [FluxAICache.missExecute, FluxAICache.cache_result, hf]
  · simp [FluxAICache.missExecute, FluxAICache.cache_result]

/-- If a non-bypass `get_or_execute` of the enhanced cache invoked the
wrapped function, the whole call reduces to its full-miss tail. -/
theorem EnhancedCache.invoked_eq_miss {α : Type} [PyTruthy α] (fr fw : Bool)
    (st : CacheState α) (now : Nat) (key : String) (ttl : Option Nat) (funcVal : α)
    (h : (EnhancedCache.get_or_execute ⟨false, false, fr, fw⟩ st now key ttl false
      funcVal).funcInvoked = true) :
    EnhancedCache.get_or_execute ⟨false, false, fr, fw⟩ st now key ttl false funcVal =
      EnhancedCache.missExecute ⟨false, false, fr, fw⟩ st now key ttl funcVal := by
  unfold EnhancedCache.get_or_execute at h ⊢
  cases hr : redisGet st.redis now key with
  | some v =>
      rw [hr] at h
      simp at h
  | none =>
      rw [hr] at h
      cases fr with
      | true => simp
      | false =>
          cases hd : get_from_db_cache st.db now key with
          | none => simp
          | some v =>
              rw [hd] at h
              by_cases ht : PyTruthy.truthy v = true
              · simp [ht] at h
              · simp [ht]

/-- Flux-cache counterpart of `EnhancedCache.invoked_eq_miss`. -/
theorem FluxAICache.flux_invoked_eq_miss {α : Type} [PyTruthy α] (fr fw : Bool)
    (st : CacheState α) (now : Nat) (key : String) (ttl : Option Nat) (funcVal : α)
    (h : (FluxAICache.get_or_execute ⟨false, false, fr, fw⟩ st now key ttl
      funcVal).funcInvoked = true) :
    FluxAICache.get_or_execute ⟨false, false, fr, fw⟩ st now key ttl funcVal =
      FluxAICache.missExecute ⟨false, false, fr, fw⟩ st now key ttl funcVal := by
  unfold FluxAICache.get_or_execute at h ⊢
  cases hr : redisGet st.redis now key with
  | some v =>
      rw [hr] at h
      simp at h
  | none =>
      rw [hr] at h
      cases fr with
      | true => simp
      | false =>
          cases hd : get_from_db_cache st.db now key with
          | none => simp
          | some v =>
              rw [hd] at h
              by_cases ht : PyTruthy.truthy v = true
              · simp [ht] at h
              · simp [ht]

/-! ## Cache claims -/

/-- C2: in both cache implementations, once a fault-free
`get_or_execute` for key K has executed its wrapped function (full
miss) and cached the value V, a subsequent fault-free call for K made
before the first call's TTL has elapsed returns V, does not invoke its
(possibly different) wrapped function, and leaves the cache state
unchanged — so every further call before expiry behaves the same. -/
theorem C2_cache_hit_after_write {α : Type} [PyTruthy α] (st st' : CacheState α)
    (t0 t1 : Nat) (K : String) (ttl1 ttl2 : Option Nat) (V V2 : α)
    (hE : (EnhancedCache.get_or_execute Faults.none st t0 K ttl1 false V).funcInvoked = true)
    (hF : (FluxAICache.get_or_execute Faults.none st' t0 K ttl1 V).funcInvoked = true)
    (ht : t1 < t0 + ttlOrDefault ttl1) :
    EnhancedCache.get_or_execute Faults.none
        (EnhancedCache.get_or_execute Faults.none st t0 K ttl1 false V).state t1 K ttl2
        false V2 =
      ⟨(EnhancedCache.get_or_execute Faults.none st t0 K ttl1 false V).state,
        CacheOutput.ok V, false⟩ ∧
    FluxAICache.get_or_execute Faults.none
        (FluxAICache.get_or_execute Faults.none st' t0 K ttl1 V).state t1 K ttl2 V2 =
      ⟨(FluxAICache.get_or_execute Faults.none st' t0 K ttl1 V).state,
        CacheOutput.ok V, false⟩ := by
  constructor
  · have h1 := EnhancedCache.invoked_eq_miss false false st t0 K ttl1 V hE
    have h2 := (EnhancedCache.missExecute_spec false false st t0 K ttl1 V).2.2
    have hredis : (EnhancedCache.get_or_execute Faults.none st t0 K ttl1 false
        V).state.redis = redisSet st.redis K V (t0 + ttlOrDefault ttl1) := by
      show (EnhancedCache.get_or_execute ⟨false, false, false, false⟩ st t0 K ttl1 false
        V).state.redis = _
      rw [h1]
      exact h2
    set S := (EnhancedCache.get_or_execute Faults.none st t0 K ttl1 false V).state with hS
    unfold EnhancedCache.get_or_execute
    rw [hredis, redisGet_redisSet_self, if_pos ht]
    rfl
  · have h1 := FluxAICache.flux_invoked_eq_miss false false st' t0 K ttl1 V hF
    have h2 := (FluxAICache.fluxMissExecute_spec false false st' t0 K ttl1 V).2.2
    have hredis : (FluxAICache.get_or_execute Faults.none st' t0 K ttl1
        V).state.redis = redisSet st'.redis K V (t0 + ttlOrDefault ttl1) := by
      show (FluxAICache.get_or_execute ⟨false, false, false, false⟩ st' t0 K ttl1
        V).state.redis = _
      rw [h1]
      exact h2
    set S := (FluxAICache.get_or_execute Faults.none st' t0 K ttl1 V).state with hS
    unfold FluxAICache.get_or_execute
    rw [hredis, redisGet_redisSet_self, if_pos ht]
    rfl

/-- C2 witness: key "k", value 5 cached at time 0 with TTL 100, read
back at time 10 against a would-be different function value 9. -/
theorem C2_cache_hit_after_write_witness :
    (EnhancedCache.get_or_execute Faults.none (⟨[], []⟩ : CacheState Nat) 0 "k" (some 100)
      false 5).funcInvoked = true ∧
    (FluxAICache.get_or_execute Faults.none (⟨[], []⟩ : CacheState Nat) 0 "k" (some 100)
      5).funcInvoked = true ∧
    (10 : Nat) < 0 + ttlOrDefault (some 100) ∧
    EnhancedCache.get_or_execute Faults.none
        (EnhancedCache.get_or_execute Faults.none (⟨[], []⟩ : CacheState Nat) 0 "k"
          (some 100) false 5).state 10 "k" (some 100) false 9 =
      ⟨(EnhancedCache.get_or_execute Faults.none (⟨[], []⟩ : CacheState Nat) 0 "k"
          (some 100) false 5).state, CacheOutput.ok 5, false⟩ ∧
    FluxAICache.get_or_execute Faults.none
        (FluxAICache.get_or_execute Faults.none (⟨[], []⟩ : CacheState Nat) 0 "k"
          (some 100) 5).state 10 "k" (some 100) 9 =
      ⟨(FluxAICache.get_or_execute Faults.none (⟨[], []⟩ : CacheState Nat) 0 "k"
          (some 100) 5).state, CacheOutput.ok 5, false⟩ :=
  ⟨by decide, by decide, by decide,
   (C2_cache_hit_after_write ⟨[], []⟩ ⟨[], []⟩ 0 10 "k" (some 100) (some 100) 5 9
     (by decide) (by decide) (by decide)).1,
   (C2_cache_hit_after_write ⟨[], []⟩ ⟨[], []⟩ 0 10 "k" (some 100) (some 100) 5 9
     (by decide) (by decide) (by decide)).2⟩

/-- C5: in both cache implementations, when the only persistent row for
the key has already expired and the volatile tier holds no entry for the
key, a fault-free `get_or_execute` treats the lookup as a miss: it
invokes the wrapped function and returns its value. -/
theorem C5_expired_entry_is_miss {α : Type} [PyTruthy α] (st : CacheState α) (row : DbRow α)
    (now : Nat) (K : String) (ttl : Option Nat) (V : α)
    (hredis : st.redis.find? (fun e => e.1 == K) = none)
    (hdb : st.db = [row]) (hk : row.request_hash = K) (hexp : row.expires_at < now) :
    (EnhancedCache.get_or_execute Faults.none st now K ttl false V).funcInvoked = true ∧
    (EnhancedCache.get_or_execute Faults.none st now K ttl false V).output =
      CacheOutput.ok V ∧
    (FluxAICache.get_or_execute Faults.none st now K ttl V).funcInvoked = true ∧
    (FluxAICache.get_or_execute Faults.none st now K ttl V).output = CacheOutput.ok V := by
  have hget : redisGet st.redis now K = none := by
    unfold redisGet
    rw [hredis]
  have hdbget : get_from_db_cache st.db now K = none := by
    unfold get_from_db_cache
    rw [hdb]
    have hlt : ¬ now < row.expires_at := by omega
    simp [List.find?_cons, hk, hlt]
  have hE := EnhancedCache.missExecute_spec (α := α) false false st now K ttl V
  have hF := FluxAICache.fluxMissExecute_spec (α := α) false false st now K ttl V
  constructor
  · unfold EnhancedCache.get_or_execute
    rw [hget]
    simp only [hdbget]
    exact hE.2.1
  constructor
  · unfold EnhancedCache.get_or_execute
    rw [hget]
    simp only [hdbget]
    exact hE.1
  constructor
  · unfold FluxAICache.get_or_execute
    rw [hget]
    simp only [hdbget]
    exact hF.2.1
  · unfold FluxAICache.get_or_execute
    rw [hget]
    simp only [hdbget]
    exact hF.1

/-- C5 witness: the sole persistent row for "k" expired at time 5; a
fault-free lookup at time 10 re-invokes the function (value 3). -/
theorem C5_expired_entry_is_miss_witness :
    ((⟨[], [⟨"k", 7, 5⟩]⟩ : CacheState Nat).redis.find? (fun e => e.1 == "k") = none) ∧
    (⟨[], [⟨"k", 7, 5⟩]⟩ : CacheState Nat).db = [⟨"k", 7, 5⟩] ∧
    (⟨"k", (7 : Nat), 5⟩ : DbRow Nat).request_hash = "k" ∧
    (⟨"k", (7 : Nat), 5⟩ : DbRow Nat).expires_at < 10 ∧
    (EnhancedCache.get_or_execute Faults.none (⟨[], [⟨"k", 7, 5⟩]⟩ : CacheState Nat) 10 "k"
      none false 3).funcInvoked = true :=
  ⟨rfl, rfl, rfl, by decide,
   (C5_expired_entry_is_miss ⟨[], [⟨"k", 7, 5⟩]⟩ ⟨"k", 7, 5⟩ 10 "k" none 3 rfl rfl rfl
     (by decide)).1⟩

/-- C6 counterexample: with a valid volatile entry (key "k", value 7,
expiry 100) and an empty persistent tier, a `bypass_cache = true` call
at time 0 invokes the function (value 9) but returns with both tiers
exactly as they were — nothing is written back, contradicting the
claimed refresh. -/
theorem C6_counterexample :
    EnhancedCache.get_or_execute Faults.none (⟨[("k", 7, 100)], []⟩ : CacheState Nat) 0 "k"
        (some 50) true 9 =
      ⟨⟨[("k", 7, 100)], []⟩, CacheOutput.ok 9, true⟩ ∧
    (EnhancedCache.get_or_execute Faults.none (⟨[("k", 7, 100)], []⟩ : CacheState Nat) 0 "k"
        (some 50) true 9).state.db = [] := by
  exact ⟨rfl, rfl⟩

/-- C6 amended: `bypass_cache = true` always invokes the underlying
function — even when a valid cached entry exists — and returns its
fresh result directly, performing no cache traffic at all: the state of
both tiers is returned unchanged. -/
theorem C6_bypass_no_refresh {α : Type} [PyTruthy α] (f : Faults) (st : CacheState α)
    (now : Nat) (key : String) (ttl : Option Nat) (funcVal : α) :
    EnhancedCache.get_or_execute f st now key ttl true funcVal =
      ⟨st, CacheOutput.ok funcVal, true⟩ := rfl

/-- C7 counterexample: on a full miss with the volatile-tier write
failing, the wrapped function is invoked and succeeds with 1, yet
`get_or_execute` propagates the Redis error instead of returning 1 —
volatile-tier storage failures are not swallowed. -/
theorem C7_counterexample :
    EnhancedCache.get_or_execute (⟨false, true, false, false⟩ : Faults)
        (⟨[], []⟩ : CacheState Nat) 0 "k" (some 50) false 1 =
      ⟨⟨[], []⟩, CacheOutput.raisedErr StorageErr.redisSetErr, true⟩ ∧
    (EnhancedCache.get_or_execute (⟨false, true, false, false⟩ : Faults)
        (⟨[], []⟩ : CacheState Nat) 0 "k" (some 50) false 1).output ≠
      CacheOutput.ok 1 := by
  exact ⟨rfl, by decide⟩

/-- C7 amended: persistent-tier storage failures (read or write) are
caught and logged and never block the primary call — whenever the
wrapped function was invoked and the volatile tier does not fail, its
result is returned regardless of database faults. -/
theorem C7_persistent_failures_swallowed {α : Type} [PyTruthy α] (fr fw : Bool)
    (st : CacheState α) (now : Nat) (key : String) (ttl : Option Nat) (funcVal : α)
    (h : (EnhancedCache.get_or_execute ⟨false, false, fr, fw⟩ st now key ttl false
      funcVal).funcInvoked = true) :
    (EnhancedCache.get_or_execute ⟨false, false, fr, fw⟩ st now key ttl false
      funcVal).output = CacheOutput.ok funcVal := by
  rw [EnhancedCache.invoked_eq_miss fr fw st now key ttl funcVal h]
  exact (EnhancedCache.missExecute_spec fr fw st now key ttl funcVal).1

/-- C7 amended witness: both database tiers fault, the function value 1
is still returned. -/
theorem C7_persistent_failures_swallowed_witness :
    (EnhancedCache.get_or_execute (⟨false, false, true, true⟩ : Faults)
      (⟨[], []⟩ : CacheState Nat) 0 "k" none false 1).funcInvoked = true ∧
    (EnhancedCache.get_or_execute (⟨false, false, true, true⟩ : Faults)
      (⟨[], []⟩ : CacheState Nat) 0 "k" none false 1).output = CacheOutput.ok 1 :=
  ⟨by decide,
   C7_persistent_failures_swallowed true true ⟨[], []⟩ 0 "k" none 1 (by decide)⟩

/-- C8 counterexample: the flux cache's `_cache_result` on a store
already holding row ("k", 7, 50) writes value 9: the insert is rejected
by the UNIQUE constraint and rolled back, so the persistent row keeps
payload 7 and expiry 50 — it is not updated in place as claimed. -/
theorem C8_counterexample :
    FluxAICache.cache_result Faults.none (⟨[], [⟨"k", 7, 50⟩]⟩ : CacheState Nat) 60 "k"
        (some 100) 9 =
      Sum.inl ⟨[("k", 9, 160)], [⟨"k", 7, 50⟩]⟩ := by
  decide

/-- C8 amended: when the persistent store already holds a row for the
key, the enhanced cache's `_cache_result` updates that first row's
payload and expiry in place — keeping exactly as many rows for the key
as before — while the flux cache's `_cache_result` attempts a fresh
insert that the UNIQUE constraint rejects, leaving the table unchanged
(still one row, but with its old payload and expiry). -/
theorem C8_upsert_semantics {α : Type} (st : CacheState α) (now : Nat) (key : String)
    (ttl : Option Nat) (v : α)
    (h : (st.db.find? (fun r => r.request_hash == key)).isSome = true) :
    EnhancedCache.cache_result Faults.none st now key ttl v =
      Sum.inl ⟨redisSet st.redis key v (now + ttlOrDefault ttl),
        updateFirst st.db key v (now + ttlOrDefault ttl)⟩ ∧
    countKey (updateFirst st.db key v (now + ttlOrDefault ttl)) key = countKey st.db key ∧
    (updateFirst st.db key v (now + ttlOrDefault ttl)).find?
        (fun r => r.request_hash == key) =
      (st.db.find? (fun r => r.request_hash == key)).map
        (fun r => { r with response_data := v, expires_at := now + ttlOrDefault ttl }) ∧
    FluxAICache.cache_result Faults.none st now key ttl v =
      Sum.inl ⟨redisSet st.redis key v (now + ttlOrDefault ttl), st.db⟩ := by
  refine ⟨?_, countKey_updateFirst _ _ _ _, find?_updateFirst _ _ _ _, ?_⟩
  · simp only [EnhancedCache.cache_result, Faults.none]
    cases hf : st.db.find? (fun r => r.request_hash == key) with
    | none =>
        rw [hf] at h
        simp at h
    | some r => simp
  · have hany : st.db.any (fun r => r.request_hash == key) = true := by
      rcases Option.isSome_iff_exists.mp h with ⟨r, hr⟩
      have hp : (fun x : DbRow α => x.request_hash == key) r = true :=
        List.find?_some (p := fun x : DbRow α => x.request_hash == key) (a := r) hr
      exact List.any_eq_true.mpr ⟨r, List.mem_of_find?_eq_some hr, hp⟩
    simp [FluxAICache.cache_result, Faults.none, hany]

/-- C8 amended witness: upserting value 9 over the existing row
("k", 7, 50): the enhanced store ends with the row updated, the flux
store with the old row untouched. -/
theorem C8_upsert_semantics_witness :
    ((⟨[], [⟨"k", 7, 50⟩]⟩ : CacheState Nat).db.find?
      (fun r => r.request_hash == "k")).isSome = true ∧
    EnhancedCache.cache_result Faults.none (⟨[], [⟨"k", 7, 50⟩]⟩ : CacheState Nat) 60 "k"
        (some 100) 9 =
      Sum.inl ⟨redisSet [] "k" 9 (60 + ttlOrDefault (some 100)),
        updateFirst [⟨"k", 7, 50⟩] "k" 9 (60 + ttlOrDefault (some 100))⟩ ∧
    FluxAICache.cache_result Faults.none (⟨[], [⟨"k", 7, 50⟩]⟩ : CacheState Nat) 60 "k"
        (some 100) 9 =
      Sum.inl ⟨redisSet [] "k" 9 (60 + ttlOrDefault (some 100)), [⟨"k", 7, 50⟩]⟩ :=
  ⟨by decide,
   (C8_upsert_semantics ⟨[], [⟨"k", 7, 50⟩]⟩ 60 "k" (some 100) 9 (by decide)).1,
   (C8_upsert_semantics ⟨[], [⟨"k", 7, 50⟩]⟩ 60 "k" (some 100) 9 (by decide)).2.2.2⟩

/-! ## Fallback claims -/

/-- C10 counterexample: the chat-completion fallback carries no
explicit failure flag — it has no "success" field at all — unlike the
other fallbacks (here `list_files`, which does carry `success: false`). -/
theorem C10_counterexample :
    (get_fallback_response "chat_completion" []).getField "success" = none ∧
    (get_fallback_response "list_files" []).getField "success" =
      some (Json.bool false) := ⟨rfl, rfl⟩

/-- C10 amended: for every messages list, the chat-completion fallback
is a structured response with a single choice whose assistant message
content is a non-empty string and whose usage counters are all zero; it
is identifiable as degraded only through `id = "fallback_response"` and
`model = "fallback"` — it carries no explicit failure flag (no
"success" field). -/
theorem C10_fallback_chat_shape (messages : List Json) :
    ∃ content : String,
      (get_fallback_response "chat_completion" messages).getField "choices" =
        some (Json.arr [Json.obj
          [("finish_reason", Json.str "stop"),
           ("message", Json.obj
             [("role", Json.str "assistant"), ("content", Json.str content)])]]) ∧
      content ≠ "" ∧
      (get_fallback_response "chat_completion" messages).getField "usage" =
        some (Json.arr [Json.obj
          [("completion_tokens", Json.num 0), ("prompt_tokens", Json.num 0),
           ("total_tokens", Json.num 0)]]) ∧
      (get_fallback_response "chat_completion" messages).getField "success" = none ∧
      (get_fallback_response "chat_completion" messages).getField "model" =
        some (Json.str "fallback") ∧
      (get_fallback_response "chat_completion" messages).getField "id" =
        some (Json.str "fallback_response") := by
  refine ⟨"I'm sorry, but the AI service is currently unavailable. Your request has been saved and will be processed when the service is back online.", rfl, ?_, rfl, rfl, rfl, rfl⟩
  decide

end Pulse360
